import Mathlib

/-!
# Verification of the fixmyprompt-server domain pipeline

A shallow embedding of the core logic of `src/index.js` (FixMyPrompt backend
server): keyword-based domain detection, the domain question catalog, the
in-memory context store, the heuristic prompt-quality scorer, and the system
prompt assembly, together with theorems about them.

Modelling conventions:
* JavaScript strings are `String`, operated on through `String.data`
  (`List Char`); the inputs of interest are ASCII, where the custom
  primitives below agree with the JavaScript ones.
* JavaScript numbers in the classifier are IEEE-754 doubles. Every score
  value reached is an integer multiple of `2^-52` below 32, and is modelled
  exactly as the integer `value * 2^52`; the weights are the doubles nearest
  the source literals 1.0 .. 1.3, and score accumulation rounds each sum to
  53 significant bits, ties to even, as double addition does. The confidence
  is carried as its `toFixed(2)` value in hundredths.
* `null`/`undefined` values are `Option.none`; fallible code returns `Option`.
-/

/-! ## String primitives (JavaScript semantics, ASCII range) -/

/-- ASCII lower-casing of one character, as `String.prototype.toLowerCase`
acts on the ASCII range. -/
def lowerChar (c : Char) : Char :=
  if 65 ≤ c.toNat ∧ c.toNat ≤ 90 then Char.ofNat (c.toNat + 32) else c

/-- `s.toLowerCase()` on ASCII strings. -/
def lowerStr (s : String) : String := String.mk (s.data.map lowerChar)

/-- `needle.isPrefixOf hay` over char lists, written out so that the kernel
can evaluate it. -/
def leadsWith : List Char → List Char → Bool
  | [], _ => true
  | _ :: _, [] => false
  | a :: as, b :: bs => a == b && leadsWith as bs

/-- Substring occurrence over char lists. -/
def hasSub : List Char → List Char → Bool
  | [], nd => nd.isEmpty
  | c :: t, nd => leadsWith nd (c :: t) || hasSub t nd

/-- `hay.includes(needle)` (JavaScript substring containment). -/
def strIncludes (hay needle : String) : Bool := hasSub hay.data needle.data

/-- The characters matched by the JavaScript `\s` class in the ASCII range:
tab, line feed, vertical tab, form feed, carriage return, space. -/
def isWsChar (c : Char) : Bool := [9, 10, 11, 12, 13, 32].contains c.toNat

/-- `s.trim()` restricted to ASCII whitespace. -/
def trimStr (s : String) : String :=
  String.mk (((s.data.dropWhile isWsChar).reverse.dropWhile isWsChar).reverse)

/-- `l.slice(-n)`: the last at most `n` elements. -/
def takeLast (n : Nat) (l : List α) : List α := l.drop (l.length - n)

/-- Splitting on maximal runs of characters satisfying `p`, with the
boundary pieces JavaScript `String.prototype.split` produces: a leading
(resp. trailing) separator run yields a leading (resp. trailing) empty
piece, and the empty string yields one empty piece. `acc` is the current
piece (reversed); `inRun` records whether the previous character was a
separator, so that a whole run produces a single split point. -/
def splitRunsAux (p : Char → Bool) : List Char → List Char → Bool → List (List Char)
  | [], acc, _ => [acc.reverse]
  | c :: t, acc, inRun =>
    if p c then
      if inRun then splitRunsAux p t [] true
      else acc.reverse :: splitRunsAux p t [] true
    else splitRunsAux p t (c :: acc) false

/-- `s.split(regexp matching runs of p)`. -/
def splitRuns (p : Char → Bool) (s : String) : List (List Char) :=
  splitRunsAux p s.data [] false

/-! ## Domain detection (src/index.js lines 122-225) -/

/-- The number of binary digits of `n` (0 for `n = 0`), with fuel for every
value below `2^64`; `bitLen n - 1` is the floor of the base-2 logarithm of a
positive `n`. -/
def bitLenAux : Nat → Nat → Nat
  | 0, _ => 0
  | fuel + 1, n => if n = 0 then 0 else bitLenAux fuel (n / 2) + 1

def bitLen (n : Nat) : Nat := bitLenAux 64 n

/-- IEEE-754 double addition for the classifier's scores. Operands and
result are non-negative doubles that are integer multiples of `2^-52` (every
score reached is one: the values stay below 32), represented as the integer
`value * 2^52`. The exact sum is rounded to 53 significant bits, ties to the
even significand, which is double addition exactly (no overflow, no
subnormals in this range). -/
def flAdd (a b : Nat) : Nat :=
  let s := a + b
  if s < 2 ^ 53 then s
  else
    let g := 2 ^ (bitLen s - 53)
    let q := s / g
    let r := s % g
    let h := g / 2
    (if h < r then q + 1 else if r < h then q else if q % 2 = 0 then q else q + 1) * g

/-- `n` float additions of the weight `w` starting from 0: the accumulated
score of a profile with `n` matching keywords. -/
def flAddTimes (w : Nat) : Nat → Nat
  | 0 => 0
  | n + 1 => flAdd (flAddTimes w n) w

/-- Rounding the rational `num / den` to the nearest integer, ties to even
(`den > 0`). -/
def natRoundHalfEven (num den : Nat) : Nat :=
  let q := num / den
  let r := num % den
  if den < 2 * r then q + 1
  else if 2 * r < den then q
  else if q % 2 = 0 then q else q + 1

/-- IEEE-754 double division of a score by 10 (`maxScore / 10`,
src/index.js line 218). The input is a score as in `flAdd` (0 or in
`[1, 32)`, scaled by `2^52`); the exact quotient equals `8 * s / 5` in units
of `2^-56` and is rounded to the representable doubles of its binade, ties
to even. The result is the double scaled by `2^56`. -/
def flDivTen (s : Nat) : Nat :=
  if s = 0 then 0
  else
    let g := 2 ^ (bitLen (8 * s / 5) - 53)
    natRoundHalfEven (8 * s) (5 * g) * g

/-- `parseFloat(Math.min(maxScore / 10, 1).toFixed(2))` (src/index.js lines
218 and 222), returned as the number of hundredths: float division by 10,
`Math.min` with 1, then decimal rounding of the double to two places — the
nearest multiple of 1/100, ties to the larger value, as `toFixed`
specifies. The JavaScript value is the double nearest `k / 100`, uniquely
determined by `k`, which the model carries. -/
def jsConfidenceHundredths (maxScore : Nat) : Nat :=
  (100 * min (flDivTen maxScore) (2 ^ 56) + 2 ^ 55) / 2 ^ 56

/-- One entry of `DOMAIN_KEYWORDS`: a keyword list and a weight.
The weight is the IEEE-754 double nearest the source literal (1.0 .. 1.3),
as the integer `value * 2^52`. -/
structure DomainConfig where
  keywords : List String
  weight : Nat
deriving DecidableEq

/-- The `DOMAIN_KEYWORDS` table (src/index.js lines 122-184), in source
iteration order. -/
def DOMAIN_KEYWORDS : List (String × DomainConfig) := [
  ("technical", ⟨["code", "python", "javascript", "function", "algorithm", "debug", "api", "database", "server", "optimize", "performance", "sql", "react", "node", "git", "docker", "aws", "programming", "software", "development", "framework", "library"], 4503599627370496⟩),
  ("creative", ⟨["story", "write", "poem", "creative", "fiction", "character", "plot", "dialogue", "narrative", "script", "song", "art", "design", "visual", "imagine", "brainstorm", "idea", "concept"], 4503599627370496⟩),
  ("business", ⟨["business", "marketing", "sales", "strategy", "revenue", "customer", "product", "market", "growth", "roi", "profit", "investment", "startup", "entrepreneur", "brand", "campaign", "analytics", "metrics"], 4503599627370496⟩),
  ("finance", ⟨["billionaire", "millionaire", "wealth", "financial", "investment", "money", "income", "earn", "accumulate", "portfolio", "stock", "crypto", "trading", "passive income", "financial independence", "net worth", "asset", "capital", "dividend", "return", "yield", "rich", "wealthy"], 5404319552844595⟩),
  ("academic", ⟨["research", "paper", "study", "analysis", "theory", "hypothesis", "experiment", "data", "conclusion", "literature", "academic", "education", "learning", "course", "thesis", "essay"], 4503599627370496⟩),
  ("career", ⟨["job", "resume", "interview", "career", "promotion", "salary", "cover letter", "linkedin", "networking", "professional", "skill", "experience", "employer", "recruiter", "application", "advancement", "development"], 4503599627370496⟩),
  ("hr", ⟨["hire", "recruit", "employee", "staff", "team", "onboarding", "candidate", "job posting", "hiring", "recruitment", "talent", "personnel", "hr", "human resources", "applicant", "screening", "hiring process"], 4953959590107546⟩),
  ("personal", ⟨["health", "fitness", "fit", "wellness", "diet", "exercise", "workout", "gym", "training", "meditation", "mental", "family", "relationship", "travel", "hobby", "personal", "life", "goal", "habit", "self-improvement", "wellbeing"], 4503599627370496⟩),
  ("fitness", ⟨["exercise", "workout", "gym", "training", "cardio", "strength", "running", "cycling", "yoga", "pilates", "stretching", "weight loss", "muscle", "fitness goal", "trainer", "program", "fit", "athletic"], 5404319552844595⟩),
  ("health", ⟨["health", "wellness", "diet", "nutrition", "medical", "doctor", "disease", "treatment", "supplement", "vitamin", "sleep", "stress", "immune", "preventive", "wellbeing", "healthy eating", "nutrition plan"], 5404319552844595⟩),
  ("relationships", ⟨["relationship", "dating", "marriage", "partner", "spouse", "family", "friend", "communication", "conflict", "love", "dating advice", "breakup", "divorce", "intimacy", "commitment", "romantic"], 4953959590107546⟩),
  ("hobbies", ⟨["hobby", "interest", "craft", "art", "music", "gaming", "sports", "collecting", "DIY", "photography", "painting", "drawing", "writing", "reading", "cooking", "gardening", "creative project"], 4503599627370496⟩),
  ("mental_health", ⟨["mental health", "anxiety", "depression", "stress", "therapy", "counseling", "mindfulness", "meditation", "emotional", "psychological", "mental wellness", "trauma", "PTSD", "bipolar", "OCD", "mental"], 5854679515581645⟩),
  ("personal_development", ⟨["personal development", "self-improvement", "goal setting", "productivity", "time management", "habits", "motivation", "confidence", "self-esteem", "growth mindset", "learning", "self-help"], 4953959590107546⟩),
  ("education", ⟨["education", "learning", "study", "student", "school", "university", "course", "training", "certification", "exam", "homework", "assignment", "subject", "teacher", "tutor", "degree"], 4953959590107546⟩)
]

/-- The per-domain score accumulation (src/index.js lines 196-202): for each
keyword of the profile, add (in double arithmetic) the profile weight when
the keyword occurs in the lowered prompt. -/
def domainScore (lowerPrompt : String) (cfg : DomainConfig) : Nat :=
  cfg.keywords.foldl (fun acc kw => if strIncludes lowerPrompt kw then flAdd acc cfg.weight else acc) 0

/-- The maximum-selection loop (src/index.js lines 205-214): starting from
`maxScore = 0` and `detectedDomain = 'general'`, update both whenever a score
is strictly greater than the current maximum. -/
def pickMax : List (String × Nat) → Nat → String → Nat × String
  | [], m, d => (m, d)
  | (dom, s) :: rest, m, d =>
    if m < s then pickMax rest s dom else pickMax rest m d

/-- The maximum of the values of a score list. -/
def listMax (l : List (String × Nat)) : Nat := l.foldr (fun q m => max q.2 m) 0

/-- The value returned by `detectDomain`. `scores` is the `scores` object
as an association list in source insertion order, each value a double scaled
by `2^52`; `confidence` is the `toFixed(2)` confidence in hundredths (see
`jsConfidenceHundredths`). -/
structure ClassificationResult where
  domain : String
  confidence : Nat
  scores : List (String × Nat)
deriving DecidableEq

/-- `detectDomain` (src/index.js lines 186-225). -/
def detectDomain (prompt : String) : ClassificationResult :=
  let lowerPrompt := lowerStr prompt
  let scores := DOMAIN_KEYWORDS.map (fun e => (e.1, domainScore lowerPrompt e.2))
  let md := pickMax scores 0 "general"
  { domain := md.2, confidence := jsConfidenceHundredths md.1, scores := scores }

/-- The exact decimal weight of a profile in tenths — the source literals
1.0 .. 1.3 read as exact decimals, as claim C2 does — recovered as the
nearest tenth of the stored double. -/
def weightTenths (w : Nat) : Nat := (10 * w + 2 ^ 51) / 2 ^ 52

/-- The classifier as claim C2 states it, for comparison with the source
translation `detectDomain`: exact decimal arithmetic (weights in tenths,
scores in tenths, confidence in hundredths), the profile weight added
exactly once per keyword occurring as a substring of the lowered prompt, the
domain with the strictly greatest total with ties kept by the first in
iteration order, and `general` with confidence 0 on an all-zero maximum. -/
def detectDomainClaimed (prompt : String) : ClassificationResult :=
  let lowerPrompt := lowerStr prompt
  let scores := DOMAIN_KEYWORDS.map (fun e => (e.1,
    weightTenths e.2.weight *
      ((e.2.keywords.filter (fun kw => strIncludes lowerPrompt kw)).length)))
  let md := pickMax scores 0 "general"
  { domain := md.2, confidence := min md.1 100, scores := scores }

example : (detectDomain "Fix this Python function that sorts a list").domain = "technical" := by decide
example : (detectDomain "zzz").domain = "general" := by decide
example : (detectDomain "zzz").confidence = 0 := by decide

/-! ## Question catalog (src/index.js lines 231-799)

In the source, `DOMAIN_QUESTIONS` maps each domain key to an array of
question objects `{id, text, answers}`. `generateQuestions` copies each
question object with a spread (`{...q, answers: q.answers || []}`), which
copies `id` and `text` but keeps the *reference* to the `answers` array.
To make that sharing observable, the answers arrays live in a heap indexed
by `Nat` addresses, and a catalog question carries the address of its
answers array (`answersRef`). Address `n` belongs to the `n`-th question of
the catalog in source order. -/

/-- One answer option `{label, value}`. -/
structure Answer where
  label : String
  value : String
deriving DecidableEq

/-- A question object as stored in the catalog or returned by
`generateQuestions`: `id` and `text` inline, `answers` as the address of an
answers array in the heap. -/
structure QuestionRef where
  id : String
  text : String
  answersRef : Nat
deriving DecidableEq

/-- A fully resolved question, as observed by a caller that reads the
`answers` array behind the reference. -/
structure Question where
  id : String
  text : String
  answers : List Answer
deriving DecidableEq

def DOMAIN_QUESTIONS : List (String × List QuestionRef) := [
  ("finance",
   [
    ⟨"q1", "What is your primary financial goal?", 0⟩,
    ⟨"q2", "What is your investment experience level?", 1⟩,
    ⟨"q3", "What financial areas interest you?", 2⟩]),
  ("technical",
   [
    ⟨"q1", "What programming language or technology are you working with?", 3⟩,
    ⟨"q2", "What is your primary goal?", 4⟩,
    ⟨"q3", "What is your experience level?", 5⟩]),
  ("creative",
   [
    ⟨"q1", "What type of creative content are you working on?", 6⟩,
    ⟨"q2", "Who is your target audience?", 7⟩,
    ⟨"q3", "What tone or style do you prefer?", 8⟩]),
  ("business",
   [
    ⟨"q1", "What is your business focus?", 9⟩,
    ⟨"q2", "What is your company stage?", 10⟩,
    ⟨"q3", "What is your primary metric?", 11⟩]),
  ("academic",
   [
    ⟨"q1", "What type of academic work are you doing?", 12⟩,
    ⟨"q2", "What academic level?", 13⟩,
    ⟨"q3", "What is your field of study?", 14⟩]),
  ("career",
   [
    ⟨"q1", "What is your career goal?", 15⟩,
    ⟨"q2", "What is your experience level?", 16⟩,
    ⟨"q3", "What industry are you in?", 17⟩]),
  ("hr",
   [
    ⟨"q1", "What type of position are you hiring for?", 18⟩,
    ⟨"q2", "What is your primary hiring challenge?", 19⟩,
    ⟨"q3", "What industry or field?", 20⟩]),
  ("fitness",
   [
    ⟨"q1", "What type of fitness are you interested in?", 21⟩,
    ⟨"q2", "What is your current fitness level?", 22⟩,
    ⟨"q3", "What is your main fitness goal?", 23⟩]),
  ("health",
   [
    ⟨"q1", "What health area are you focused on?", 24⟩,
    ⟨"q2", "What is your health goal?", 25⟩,
    ⟨"q3", "Do you have specific health concerns?", 26⟩]),
  ("relationships",
   [
    ⟨"q1", "What type of relationship?", 27⟩,
    ⟨"q2", "What is the main issue?", 28⟩,
    ⟨"q3", "What outcome do you want?", 29⟩]),
  ("hobbies",
   [
    ⟨"q1", "What type of hobby?", 30⟩,
    ⟨"q2", "What is your experience level?", 31⟩,
    ⟨"q3", "What do you want to achieve?", 32⟩]),
  ("mental_health",
   [
    ⟨"q1", "What is your main concern?", 33⟩,
    ⟨"q2", "Are you currently in treatment?", 34⟩,
    ⟨"q3", "What support are you looking for?", 35⟩]),
  ("personal_development",
   [
    ⟨"q1", "What area of development?", 36⟩,
    ⟨"q2", "What is your main goal?", 37⟩,
    ⟨"q3", "What is your timeline?", 38⟩]),
  ("education",
   [
    ⟨"q1", "What education level?", 39⟩,
    ⟨"q2", "What subject area?", 40⟩,
    ⟨"q3", "What is your goal?", 41⟩]),
  ("personal",
   [
    ⟨"q1", "What is your main focus?", 42⟩,
    ⟨"q2", "What is your current situation?", 43⟩,
    ⟨"q3", "What support do you need?", 44⟩]),
  ("general",
   [
    ⟨"q1", "What is your main goal with this prompt?", 45⟩,
    ⟨"q2", "Who will use the response?", 46⟩,
    ⟨"q3", "What level of detail do you need?", 47⟩])
]

/-- The answers array stored in the catalog at each address (src/index.js
lines 231-791). Address `n` is the answers array of the `n`-th question of
`DOMAIN_QUESTIONS` in catalog order. -/
def initialAnswerHeap : Nat → List Answer
  | 0 => [⟨"Wealth accumulation", "wealth"⟩, ⟨"Investment strategy", "investment"⟩, ⟨"Financial independence", "independence"⟩, ⟨"Passive income", "passive"⟩, ⟨"Risk management", "risk"⟩]
  | 1 => [⟨"Beginner", "beginner"⟩, ⟨"Intermediate", "intermediate"⟩, ⟨"Advanced", "advanced"⟩, ⟨"Expert", "expert"⟩, ⟨"Not investing yet", "none"⟩]
  | 2 => [⟨"Stocks/Equities", "stocks"⟩, ⟨"Cryptocurrency", "crypto"⟩, ⟨"Real Estate", "realestate"⟩, ⟨"Bonds/Fixed Income", "bonds"⟩, ⟨"Diversified Portfolio", "diversified"⟩]
  | 3 => [⟨"Python", "python"⟩, ⟨"JavaScript/Node.js", "javascript"⟩, ⟨"Java", "java"⟩, ⟨"C++", "cpp"⟩, ⟨"Other", "other"⟩]
  | 4 => [⟨"Optimize performance", "performance"⟩, ⟨"Fix a bug", "bug"⟩, ⟨"Learn/understand", "learn"⟩, ⟨"Design/architecture", "design"⟩, ⟨"Other", "other"⟩]
  | 5 => [⟨"Beginner", "beginner"⟩, ⟨"Intermediate", "intermediate"⟩, ⟨"Advanced", "advanced"⟩, ⟨"Expert", "expert"⟩]
  | 6 => [⟨"Story/Fiction", "story"⟩, ⟨"Poetry", "poetry"⟩, ⟨"Script/Dialogue", "script"⟩, ⟨"Visual/Design", "visual"⟩, ⟨"Music/Audio", "music"⟩]
  | 7 => [⟨"Children", "children"⟩, ⟨"Teenagers", "teens"⟩, ⟨"Adults", "adults"⟩, ⟨"Professionals", "professionals"⟩, ⟨"General", "general"⟩]
  | 8 => [⟨"Serious/Dramatic", "serious"⟩, ⟨"Humorous/Light", "humorous"⟩, ⟨"Inspirational", "inspirational"⟩, ⟨"Mysterious/Dark", "dark"⟩, ⟨"Romantic", "romantic"⟩]
  | 9 => [⟨"Marketing/Sales", "marketing"⟩, ⟨"Strategy/Planning", "strategy"⟩, ⟨"Operations", "operations"⟩, ⟨"Finance/Investment", "finance"⟩, ⟨"Other", "other"⟩]
  | 10 => [⟨"Startup", "startup"⟩, ⟨"Growth Stage", "growth"⟩, ⟨"Established", "established"⟩, ⟨"Enterprise", "enterprise"⟩, ⟨"Non-profit", "nonprofit"⟩]
  | 11 => [⟨"Revenue/Profit", "revenue"⟩, ⟨"Customer Acquisition", "acquisition"⟩, ⟨"Market Share", "market"⟩, ⟨"Efficiency/Cost", "efficiency"⟩, ⟨"Growth Rate", "growth"⟩]
  | 12 => [⟨"Research Paper", "research"⟩, ⟨"Thesis/Dissertation", "thesis"⟩, ⟨"Essay/Assignment", "essay"⟩, ⟨"Literature Review", "literature"⟩, ⟨"Other", "other"⟩]
  | 13 => [⟨"Undergraduate", "undergrad"⟩, ⟨"Graduate/Masters", "masters"⟩, ⟨"PhD/Doctoral", "phd"⟩, ⟨"Professional", "professional"⟩, ⟨"Other", "other"⟩]
  | 14 => [⟨"STEM", "stem"⟩, ⟨"Humanities", "humanities"⟩, ⟨"Social Sciences", "social"⟩, ⟨"Business/Economics", "business"⟩, ⟨"Other", "other"⟩]
  | 15 => [⟨"Job Search", "job_search"⟩, ⟨"Promotion/Growth", "promotion"⟩, ⟨"Career Change", "change"⟩, ⟨"Skill Development", "skills"⟩, ⟨"Other", "other"⟩]
  | 16 => [⟨"Entry Level", "entry"⟩, ⟨"Mid-Level", "mid"⟩, ⟨"Senior", "senior"⟩, ⟨"Executive", "executive"⟩, ⟨"Other", "other"⟩]
  | 17 => [⟨"Technology", "tech"⟩, ⟨"Finance", "finance"⟩, ⟨"Healthcare", "healthcare"⟩, ⟨"Education", "education"⟩, ⟨"Other", "other"⟩]
  | 18 => [⟨"Entry-level", "entry"⟩, ⟨"Mid-level", "mid"⟩, ⟨"Senior/Leadership", "senior"⟩, ⟨"Executive", "executive"⟩, ⟨"Specialized/Technical", "technical"⟩]
  | 19 => [⟨"Finding qualified candidates", "qualified"⟩, ⟨"Screening/Filtering", "screening"⟩, ⟨"Interview process", "interview"⟩, ⟨"Retention", "retention"⟩, ⟨"Onboarding", "onboarding"⟩]
  | 20 => [⟨"Technology", "tech"⟩, ⟨"Finance", "finance"⟩, ⟨"Healthcare", "healthcare"⟩, ⟨"Retail/Customer Service", "retail"⟩, ⟨"Other", "other"⟩]
  | 21 => [⟨"Cardio", "cardio"⟩, ⟨"Strength Training", "strength"⟩, ⟨"Flexibility/Yoga", "flexibility"⟩, ⟨"Sports", "sports"⟩, ⟨"General Fitness", "general"⟩]
  | 22 => [⟨"Beginner", "beginner"⟩, ⟨"Intermediate", "intermediate"⟩, ⟨"Advanced", "advanced"⟩, ⟨"Athlete", "athlete"⟩, ⟨"Recovering from injury", "recovering"⟩]
  | 23 => [⟨"Weight loss", "weight_loss"⟩, ⟨"Muscle gain", "muscle_gain"⟩, ⟨"Endurance", "endurance"⟩, ⟨"Flexibility", "flexibility"⟩, ⟨"Overall health", "health"⟩]
  | 24 => [⟨"Nutrition", "nutrition"⟩, ⟨"Sleep", "sleep"⟩, ⟨"Stress management", "stress"⟩, ⟨"Disease prevention", "prevention"⟩, ⟨"General wellness", "general"⟩]
  | 25 => [⟨"Weight management", "weight"⟩, ⟨"Energy and vitality", "energy"⟩, ⟨"Immunity", "immunity"⟩, ⟨"Disease prevention", "prevention"⟩, ⟨"Longevity", "longevity"⟩]
  | 26 => [⟨"Yes, chronic condition", "chronic"⟩, ⟨"Yes, recent diagnosis", "recent"⟩, ⟨"No, general wellness", "no"⟩, ⟨"Preventive care", "preventive"⟩, ⟨"Prefer not to say", "prefer_not"⟩]
  | 27 => [⟨"Romantic/Dating", "romantic"⟩, ⟨"Marriage", "marriage"⟩, ⟨"Family", "family"⟩, ⟨"Friendship", "friendship"⟩, ⟨"Professional", "professional"⟩]
  | 28 => [⟨"Communication", "communication"⟩, ⟨"Conflict/Disagreement", "conflict"⟩, ⟨"Intimacy", "intimacy"⟩, ⟨"Trust/Commitment", "trust"⟩, ⟨"Other", "other"⟩]
  | 29 => [⟨"Improve relationship", "improve"⟩, ⟨"End relationship", "end"⟩, ⟨"Maintain status quo", "maintain"⟩, ⟨"Deepen connection", "deepen"⟩, ⟨"Clarify feelings", "clarify"⟩]
  | 30 => [⟨"Creative (art, music, writing)", "creative"⟩, ⟨"Active (sports, outdoor)", "active"⟩, ⟨"Intellectual (reading, gaming)", "intellectual"⟩, ⟨"Collecting", "collecting"⟩, ⟨"DIY/Making", "diy"⟩]
  | 31 => [⟨"Beginner", "beginner"⟩, ⟨"Intermediate", "intermediate"⟩, ⟨"Advanced", "advanced"⟩, ⟨"Expert", "expert"⟩, ⟨"Just exploring", "exploring"⟩]
  | 32 => [⟨"Learn and improve", "learn"⟩, ⟨"Share with others", "share"⟩, ⟨"Monetize", "monetize"⟩, ⟨"Relax and enjoy", "relax"⟩, ⟨"Compete", "compete"⟩]
  | 33 => [⟨"Anxiety", "anxiety"⟩, ⟨"Depression", "depression"⟩, ⟨"Stress", "stress"⟩, ⟨"Trauma/PTSD", "trauma"⟩, ⟨"Other", "other"⟩]
  | 34 => [⟨"Yes, with therapist", "therapy"⟩, ⟨"Yes, with medication", "medication"⟩, ⟨"No, but considering", "considering"⟩, ⟨"No, self-managing", "self"⟩, ⟨"Prefer not to say", "prefer_not"⟩]
  | 35 => [⟨"Self-help strategies", "self_help"⟩, ⟨"Professional resources", "professional"⟩, ⟨"Community support", "community"⟩, ⟨"Crisis resources", "crisis"⟩, ⟨"Information/Education", "education"⟩]
  | 36 => [⟨"Productivity", "productivity"⟩, ⟨"Confidence/Self-esteem", "confidence"⟩, ⟨"Skills", "skills"⟩, ⟨"Habits", "habits"⟩, ⟨"Mindset", "mindset"⟩]
  | 37 => [⟨"Achieve specific goal", "achieve"⟩, ⟨"Build new habit", "habit"⟩, ⟨"Overcome challenge", "overcome"⟩, ⟨"Learn new skill", "skill"⟩, ⟨"General growth", "growth"⟩]
  | 38 => [⟨"Immediate (days)", "immediate"⟩, ⟨"Short-term (weeks)", "short"⟩, ⟨"Medium-term (months)", "medium"⟩, ⟨"Long-term (year+)", "long"⟩, ⟨"No specific timeline", "flexible"⟩]
  | 39 => [⟨"K-12", "k12"⟩, ⟨"College/University", "college"⟩, ⟨"Graduate", "graduate"⟩, ⟨"Professional/Certification", "professional"⟩, ⟨"Self-study", "self"⟩]
  | 40 => [⟨"STEM", "stem"⟩, ⟨"Humanities", "humanities"⟩, ⟨"Business", "business"⟩, ⟨"Arts", "arts"⟩, ⟨"Other", "other"⟩]
  | 41 => [⟨"Pass exam", "pass"⟩, ⟨"Understand concept", "understand"⟩, ⟨"Improve grades", "grades"⟩, ⟨"Master skill", "master"⟩, ⟨"General learning", "general"⟩]
  | 42 => [⟨"Health/Fitness", "health"⟩, ⟨"Mental Wellness", "wellness"⟩, ⟨"Personal Development", "development"⟩, ⟨"Relationships", "relationships"⟩, ⟨"Hobbies/Interests", "hobbies"⟩]
  | 43 => [⟨"Just Starting", "starting"⟩, ⟨"In Progress", "progress"⟩, ⟨"Struggling", "struggling"⟩, ⟨"Succeeding", "succeeding"⟩, ⟨"Other", "other"⟩]
  | 44 => [⟨"Motivation", "motivation"⟩, ⟨"Guidance/Advice", "guidance"⟩, ⟨"Resources/Tools", "resources"⟩, ⟨"Accountability", "accountability"⟩, ⟨"Other", "other"⟩]
  | 45 => [⟨"Get specific information", "info"⟩, ⟨"Generate creative content", "creative"⟩, ⟨"Solve a problem", "problem"⟩, ⟨"Learn something new", "learn"⟩, ⟨"Other", "other"⟩]
  | 46 => [⟨"Just me", "personal"⟩, ⟨"My team/group", "team"⟩, ⟨"General audience", "audience"⟩, ⟨"Professional use", "professional"⟩, ⟨"Other", "other"⟩]
  | 47 => [⟨"Brief/concise", "brief"⟩, ⟨"Moderate detail", "moderate"⟩, ⟨"Comprehensive/detailed", "detailed"⟩, ⟨"Very technical", "technical"⟩, ⟨"Simple/beginner-friendly", "simple"⟩]
  | _ => []

/-- Heap update: the caller mutates the answers array stored at address `a`
(for example `returned[0].answers.push(...)` or `returned[0].answers[0].label = ...`). -/
def updateHeap (h : Nat → List Answer) (a : Nat) (v : List Answer) : Nat → List Answer :=
  fun x => if x = a then v else h x

/-- Resolving a question reference against the heap, as a caller observes it. -/
def readQuestion (h : Nat → List Answer) (q : QuestionRef) : Question :=
  ⟨q.id, q.text, h q.answersRef⟩

/-- The catalog content for a domain key as observed through the heap: what a
later `generateQuestions` caller sees for that key (without fallback). -/
def readCatalog (h : Nat → List Answer) (domain : String) : List Question :=
  ((DOMAIN_QUESTIONS.lookup domain).getD []).map (readQuestion h)

/-- The addresses of all answers arrays owned by the catalog. -/
def catalogAnswerRefs : List Nat :=
  ((DOMAIN_QUESTIONS.map Prod.snd).flatten).map (fun q => q.answersRef)

/-- `generateQuestions` (src/index.js lines 793-799):
`DOMAIN_QUESTIONS[domain] || DOMAIN_QUESTIONS['general'] || []`, then each
question is copied with `{...q, answers: q.answers || []}` — the spread
copies `id` and `text` into a fresh object but keeps the reference to the
`answers` array, and `|| []` never fires because every catalog question has
an answers array. `domain` is `none` when the request carried no domain
(indexing with `undefined` misses and falls back to `'general'`). -/
def generateQuestions (domain : Option String) : List QuestionRef :=
  let questions :=
    (match domain.bind (fun d => DOMAIN_QUESTIONS.lookup d) with
     | some qs => qs
     | none => (DOMAIN_QUESTIONS.lookup "general").getD [])
  questions.map (fun q => { id := q.id, text := q.text, answersRef := q.answersRef })

/-! ## Conversation context (src/index.js lines 1163-1251) -/

/-- One entry of `context.previousPrompts`. -/
structure PrevPrompt where
  original : String
  domain : String
deriving DecidableEq

/-- The conversation context object. Absent fields are `none`. -/
structure ConversationContext where
  conversationTopic : Option String
  keyDetails : Option (List String)
  previousPrompts : Option (List PrevPrompt)
  questionsAsked : Option (List String)
deriving DecidableEq

/-- The `questionsAsked` list a context carries, empty when the context or
the field is absent. -/
def askedTexts (context : Option ConversationContext) : List String :=
  ((context.bind ConversationContext.questionsAsked).getD [])

/-- `generateContextAwareQuestions` (src/index.js lines 1202-1215): filter
out questions whose text was already asked; if that would remove every
question, return the unfiltered list. The guard `!context ||
!context.questionsAsked` returns the base questions directly (an empty
`questionsAsked` array is truthy in JavaScript and goes through the filter,
which then removes nothing). -/
def generateContextAwareQuestions (domain : Option String)
    (context : Option ConversationContext) : List QuestionRef :=
  let baseQuestions := generateQuestions domain
  match context with
  | none => baseQuestions
  | some ctx =>
    match ctx.questionsAsked with
    | none => baseQuestions
    | some asked =>
      let filteredQuestions := baseQuestions.filter (fun q => !(asked.contains q.text))
      if filteredQuestions.length > 0 then filteredQuestions else baseQuestions

/-! ## Context storage (src/index.js lines 79-114)

`contextStore` is a `Map`; a context value is modelled as a finite partial
map from field names to (opaque) field values, so that full replacement
versus field-level merge is observable. -/

/-- A JavaScript object as a partial map from field names to values
(values are opaque and modelled as strings). -/
def FieldMap : Type := String → Option String

/-- The in-memory store: conversation id to stored context. -/
def ContextStoreState : Type := String → Option FieldMap

/-- The empty store (fresh `new Map()`). -/
def emptyStore : ContextStoreState := fun _ => none

/-- `{...context, savedAt: now}`: every field of the context, with
`savedAt` set to the save timestamp. -/
def stampSavedAt (context : FieldMap) (now : String) : FieldMap :=
  fun field => if field = "savedAt" then some now else context field

/-- `ContextStorage.saveContext` (src/index.js lines 82-93):
`contextStore.set(conversationId, {...context, savedAt: ...})`. -/
def saveContext (s : ContextStoreState) (conversationId : String)
    (context : FieldMap) (now : String) : ContextStoreState :=
  fun k => if k = conversationId then some (stampSavedAt context now) else s k

/-- `ContextStorage.getContext` (src/index.js lines 95-103):
`contextStore.get(conversationId)`, `null` when absent. -/
def getContext (s : ContextStoreState) (conversationId : String) : Option FieldMap :=
  s conversationId

/-- `ContextStorage.deleteContext` (src/index.js lines 105-113):
`contextStore.delete(conversationId)`. -/
def deleteContext (s : ContextStoreState) (conversationId : String) : ContextStoreState :=
  fun k => if k = conversationId then none else s k

/-! ## Prompt scoring (src/index.js lines 961-991) -/

/-- `/goal|objective|want|need|aim|purpose/i.test(prompt)` and the other
alternation regexps: some alternative occurs in the prompt,
case-insensitively. -/
def patternTest (alternatives : List String) (prompt : String) : Bool :=
  alternatives.any (fun pat => strIncludes (lowerStr prompt) pat)

/-- The sentence list (src/index.js line 973):
`prompt.split(/[.!?]+/).filter(s => s.trim().length > 0)`. A piece survives
the filter exactly when it contains a non-whitespace character. -/
def sentencesOf (prompt : String) : List (List Char) :=
  (splitRuns (fun c => c == '.' || c == '!' || c == '?') prompt).filter
    (fun s => s.any (fun c => !(isWsChar c)))

/-- `prompt.split(/\s+/).length` (src/index.js line 979): the number of
pieces, empty boundary pieces included. -/
def wordCountOf (prompt : String) : Nat := (splitRuns isWsChar prompt).length

/-- `/\d+/.test(prompt)`. -/
def hasDigit (prompt : String) : Bool := prompt.data.any (fun c => c.isDigit)

/-- A quote character as matched by the regexp at src/index.js line 984:
double quote (34), single quote (39) or backtick (96). -/
def isQuoteChar (c : Char) : Bool := [34, 39, 96].contains c.toNat

/-- `calculatePromptScore` (src/index.js lines 961-991), accumulating into
`score` in source order. The average-length test `avgLength > 50` with
`avgLength = prompt.length / Math.max(1, sentences.length)` is the exact
rational comparison `50 * max 1 count < length`. -/
def calculatePromptScore (prompt : String) : Nat :=
  let hasGoal := patternTest ["goal", "objective", "want", "need", "aim", "purpose"] prompt
  let hasContext := patternTest ["because", "since", "for", "to", "in order to"] prompt
  let hasConstraints := patternTest ["without", "except", "only", "must", "should", "cannot"] prompt
  let score := (if hasGoal then 10 else 0) + (if hasContext then 8 else 0) +
    (if hasConstraints then 7 else 0)
  let sentences := sentencesOf prompt
  let score := score + min 10 (sentences.length * 3) +
    (if 50 * max 1 sentences.length < prompt.length then 5 else 0)
  let wordCount := wordCountOf prompt
  let score := score + min 15 wordCount
  let hasNumbers := hasDigit prompt
  let hasQuotes := prompt.data.any isQuoteChar
  let hasExamples := patternTest ["example", "such as", "like", "for instance"] prompt
  let score := score + (if hasNumbers then 5 else 0) + (if hasQuotes then 5 else 0) +
    (if hasExamples then 5 else 0)
  min 100 score

/-- Clarity sub-score as the specification states it: +10 for a goal
pattern, +8 for a reason/context pattern, +7 for a constraint pattern. -/
def clarityScoreSpec (text : String) : Nat :=
  (if patternTest ["goal", "objective", "want", "need", "aim", "purpose"] text then 10 else 0) +
  (if patternTest ["because", "since", "for", "to", "in order to"] text then 8 else 0) +
  (if patternTest ["without", "except", "only", "must", "should", "cannot"] text then 7 else 0)

/-- Structure sub-score as the specification states it:
`min(10, sentenceCount * 3)` plus 5 when text length divided by sentence
count exceeds 50. -/
def structureScoreSpec (text : String) : Nat :=
  min 10 ((sentencesOf text).length * 3) +
  (if 50 * max 1 (sentencesOf text).length < text.length then 5 else 0)

/-- Completeness sub-score as the specification states it:
`min(15, wordCount)`. -/
def completenessScoreSpec (text : String) : Nat := min 15 (wordCountOf text)

/-- Specificity sub-score as the specification states it: +5 for a digit,
+5 for a quote character, +5 for an example pattern. -/
def specificityScoreSpec (text : String) : Nat :=
  (if hasDigit text then 5 else 0) +
  (if text.data.any isQuoteChar then 5 else 0) +
  (if patternTest ["example", "such as", "like", "for instance"] text then 5 else 0)

example : calculatePromptScore "I need help" = 16 := by decide

/-! ## System prompt assembly (src/index.js lines 1163-1196 and 1241-1480)

The template literals of the source are transcribed below as fixed text
segments (apostrophes written as the escape \x27), split at the points
where the source interpolates a computed value. -/

/-- Domain guidance block for technical (src/index.js lines 1256-1261): fixed text segment A. -/
def technicalGuidanceSegA : String :=
  "\n" ++
  "      ### Domain-Specific Guidance (Technical)\n" ++
  "      - Focus on clarity and precision in technical concepts\n" ++
  "      - Include relevant examples or code snippets where applicable\n" ++
  "      - Consider performance implications\n" ++
  "      - Emphasize best practices and industry standards"

/-- Domain guidance block for creative (lines 1263-1268): fixed text segment A. -/
def creativeGuidanceSegA : String :=
  "\n" ++
  "      ### Domain-Specific Guidance (Creative)\n" ++
  "      - Enhance narrative flow and emotional impact\n" ++
  "      - Maintain the author\x27s unique voice and style\n" ++
  "      - Consider audience engagement and storytelling techniques\n" ++
  "      - Balance creativity with clarity"

/-- Domain guidance block for business (lines 1270-1275): fixed text segment A. -/
def businessGuidanceSegA : String :=
  "\n" ++
  "      ### Domain-Specific Guidance (Business)\n" ++
  "      - Focus on ROI and business impact\n" ++
  "      - Include actionable insights and metrics\n" ++
  "      - Consider stakeholder perspectives\n" ++
  "      - Emphasize strategic alignment"

/-- Domain guidance block for academic (lines 1277-1282): fixed text segment A. -/
def academicGuidanceSegA : String :=
  "\n" ++
  "      ### Domain-Specific Guidance (Academic)\n" ++
  "      - Ensure academic rigor and proper citations\n" ++
  "      - Focus on research methodology and evidence\n" ++
  "      - Consider peer review standards\n" ++
  "      - Maintain scholarly tone"

/-- Domain guidance block for career (lines 1284-1289): fixed text segment A. -/
def careerGuidanceSegA : String :=
  "\n" ++
  "      ### Domain-Specific Guidance (Career)\n" ++
  "      - Highlight relevant skills and achievements\n" ++
  "      - Consider target audience (recruiters, hiring managers)\n" ++
  "      - Emphasize professional growth and impact\n" ++
  "      - Use industry-specific language"

/-- Domain guidance block for personal (lines 1291-1296): fixed text segment A. -/
def personalGuidanceSegA : String :=
  "\n" ++
  "      ### Domain-Specific Guidance (Personal)\n" ++
  "      - Focus on practical, actionable advice\n" ++
  "      - Consider personal growth and well-being\n" ++
  "      - Be empathetic and supportive\n" ++
  "      - Provide realistic and achievable suggestions"

/-- Domain guidance block for finance (lines 1298-1304): fixed text segment A. -/
def financeGuidanceSegA : String :=
  "\n" ++
  "      ### Domain-Specific Guidance (Finance)\n" ++
  "      - Focus on financial principles and risk management\n" ++
  "      - Consider investment goals and risk tolerance\n" ++
  "      - Include relevant financial metrics and benchmarks\n" ++
  "      - Emphasize long-term wealth building strategies\n" ++
  "      - Consider tax implications and diversification"

/-- Refinement-mode context instructions (lines 1323-1336): fixed text segment A. -/
def refinementSegA : String :=
  "\n" ++
  "        ### Conversational Context (Refinement Request - v0.2.2)\n" ++
  "        The user is refining a previously improved prompt based on their answers to clarifying questions.\n" ++
  "        \n" ++
  "        Previous prompts:\n" ++
  "        "

/-- Refinement-mode context instructions (lines 1323-1336): fixed text segment B. -/
def refinementSegB : String :=
  "\n" ++
  "        \n" ++
  "        CRITICAL INSTRUCTIONS FOR REFINEMENT:\n" ++
  "        1. Do NOT repeat the guardrails or structure already added in the previous improvement\n" ++
  "        2. Focus on incorporating the refinement answers to make the prompt more specific\n" ++
  "        3. Build on the previous improvements rather than starting from scratch\n" ++
  "        4. Enhance the prompt based on the user\x27s feedback and answers\n" ++
  "        5. Make targeted, incremental improvements based on the refinement context\n" ++
  "        "

/-- Follow-up early-return instruction text (lines 1341-1401): fixed text segment A. -/
def followUpSegA : String :=
  "You are a senior prompt improvement specialist.\n" ++
  "\n" ++
  "                  ## STEP 1: CONSOLIDATE CONTEXT\n" ++
  "                  \n" ++
  "                  The user has been having a multi-turn conversation. Here are the previous prompts:\n" ++
  "                  \n" ++
  "                  Topic: "

/-- Follow-up early-return instruction text (lines 1341-1401): fixed text segment B. -/
def followUpSegB : String :=
  "\n" ++
  "                  \n" ++
  "                  Previous prompts:\n" ++
  "                  "

/-- Follow-up early-return instruction text (lines 1341-1401): fixed text segment C. -/
def followUpSegC : String :=
  "\n" ++
  "                  \n" ++
  "                  First, understand what the user is really asking for across all these prompts. Identify:\n" ++
  "                  - The core objective that connects all prompts\n" ++
  "                  - The themes and topics being explored\n" ++
  "                  - The progression and evolution of the request\n" ++
  "                  - What the user is ultimately trying to achieve\n" ++
  "                  \n" ++
  "                  ## STEP 2: APPLY COMPREHENSIVE TRANSFORMATION RULES\n" ++
  "                  \n" ++
  "                  Now improve the current prompt by applying these transformation rules:\n" ++
  "                  \n" ++
  "                  ### Rule 1: Add Structure\n" ++
  "                  Break the prompt into clear, logical sections:\n" ++
  "                  - Goal/Objective: What does the user want to achieve?\n" ++
  "                  - Context: What background information or constraints are relevant?\n" ++
  "                  - Constraints: What limitations or requirements exist?\n" ++
  "                  - Output Format: How should the response be structured?\n" ++
  "                  \n" ++
  "                  ### Rule 2: Clarify Goal/Outcome\n" ++
  "                  Make success criteria explicit and measurable:\n" ++
  "                  - Define what \"success\" looks like\n" ++
  "                  - Specify the desired output format and length\n" ++
  "                  - Clarify the target audience or use case\n" ++
  "                  - Add examples if helpful\n" ++
  "                  \n" ++
  "                  ### Rule 3: Inject Always-On Guardrails\n" ++
  "                  Add behavioral constraints to improve reliability:\n" ++
  "                  - \"Avoid hallucinations: Ground all claims in facts or explicitly mark assumptions\"\n" ++
  "                  - \"Avoid rookie mistakes: Apply professional best practices and senior-level thinking\"\n" ++
  "                  - \"Minimize bias: Be objective, balanced, and consider multiple perspectives\"\n" ++
  "                  - \"Follow structure strictly: Respect the requested format and constraints\"\n" ++
  "                  - \"Verify accuracy: Check claims against reliable sources when possible\"\n" ++
  "                  \n" ++
  "                  ### Rule 4: Enforce Expert-Hat Framing\n" ++
  "                  Reframe the prompt as if it\x27s coming from a deeply experienced practitioner:\n" ++
  "                  - Operator perspective: Practical, decisive, results-oriented, action-focused\n" ++
  "                  - Coach perspective: Reflective, explanatory, educational, context-aware\n" ++
  "                  - Blend both perspectives: Be both decisive AND thoughtful\n" ++
  "                  \n" ++
  "                  ## CRITICAL INSTRUCTIONS FOR FOLLOW-UPS\n" ++
  "                  \n" ++
  "                  1. **Build on previous context**: Use the consolidated understanding from Step 1\n" ++
  "                  2. **Show progression**: Demonstrate how this prompt builds on or evolves from previous ones\n" ++
  "                  3. **Add depth**: Make the prompt significantly more comprehensive than the original\n" ++
  "                  4. **Maintain consistency**: Keep the same tone and style as the conversation\n" ++
  "                  5. **Avoid generic templates**: Return a well-structured, specific prompt tailored to the context\n" ++
  "                  \n" ++
  "                  ## OUTPUT REQUIREMENTS\n" ++
  "                  \n" ++
  "                  Return ONLY the improved prompt. No explanations, no preamble, no meta-commentary.\n" ++
  "                  The improved prompt should be ready to use immediately and significantly more comprehensive than the original."

/-- Main system prompt template (lines 1412-1479): fixed text segment A. -/
def mainSegA : String :=
  "You are a senior prompt engineer specializing in improving AI prompts for better outcomes.\n" ++
  "    \n" ++
  "      Your job is to take a user\x27s prompt and apply comprehensive transformation rules to make it more effective and reliable.\n" ++
  "      \n" ++
  "      ## TRANSFORMATION RULES (Apply ALL of these)\n" ++
  "      \n" ++
  "      ### Rule 1: Add Structure\n" ++
  "      Break the prompt into clear, logical sections:\n" ++
  "      - Goal/Objective: What does the user want to achieve? What is the core request?\n" ++
  "      - Context: What background information, constraints, or domain knowledge is relevant?\n" ++
  "      - Constraints: What limitations, boundaries, or requirements exist?\n" ++
  "      - Output Format: How should the response be structured? (e.g., bullet points, paragraphs, code, table)\n" ++
  "      \n" ++
  "      Use clear section headers or markers to organize these elements.\n" ++
  "      \n" ++
  "      ### Rule 2: Clarify Goal/Outcome\n" ++
  "      Make success criteria explicit and measurable:\n" ++
  "      - Define what \"success\" looks like for this prompt\n" ++
  "      - Specify the desired output format and length\n" ++
  "      - Clarify the target audience or use case\n" ++
  "      - Add examples if helpful to illustrate the desired outcome\n" ++
  "      \n" ++
  "      ### Rule 3: Inject Always-On Guardrails\n" ++
  "      Add behavioral constraints to improve reliability and reduce hallucinations:\n" ++
  "      - \"Avoid hallucinations: Ground all claims in facts or explicitly mark assumptions\"\n" ++
  "      - \"Avoid rookie mistakes: Apply professional best practices and senior-level thinking\"\n" ++
  "      - \"Minimize bias: Be objective, balanced, and consider multiple perspectives\"\n" ++
  "      - \"Follow structure strictly: Respect the requested format and constraints\"\n" ++
  "      - \"Verify accuracy: Check claims against reliable sources when possible\"\n" ++
  "      \n" ++
  "      ### Rule 4: Enforce Expert-Hat Framing\n" ++
  "      Reframe the prompt as if it\x27s coming from a deeply experienced practitioner:\n" ++
  "      - Operator perspective: Practical, decisive, results-oriented, action-focused\n" ++
  "      - Coach perspective: Reflective, explanatory, educational, context-aware\n" ++
  "      - Blend both perspectives: Be both decisive AND thoughtful\n" ++
  "      \n" ++
  "      "

/-- Main system prompt template (lines 1412-1479): fixed text segment B. -/
def mainSegB : String :=
  "\n" ++
  "      \n" ++
  "      "

/-- Main system prompt template (lines 1412-1479): fixed text segment C. -/
def mainSegC : String :=
  "\n" ++
  "      \n" ++
  "      ## PLATFORM-AWARE HEURISTICS\n" ++
  "      \n" ++
  "      ### For ChatGPT:\n" ++
  "      - Emphasize clarity and structure (ChatGPT responds well to organized prompts)\n" ++
  "      - Use explicit section headers\n" ++
  "      - Include concrete examples\n" ++
  "      - Be direct and specific\n" ++
  "      \n" ++
  "      ### For Claude:\n" ++
  "      - Emphasize reasoning and nuance (Claude excels at nuanced analysis)\n" ++
  "      - Provide context and background\n" ++
  "      - Ask for thoughtful, balanced responses\n" ++
  "      - Encourage multi-perspective thinking\n" ++
  "      \n" ++
  "      ## IMPORTANT RULES\n" ++
  "      \n" ++
  "      - Apply ALL FOUR transformation rules to every prompt\n" ++
  "      - Return ONLY the improved prompt (no explanations, meta-commentary, or preamble)\n" ++
  "      - Do NOT change the core intent or meaning of the user\x27s request\n" ++
  "      - Preserve the user\x27s original voice and perspective where possible\n" ++
  "      - If the prompt is already well-structured, enhance it rather than completely rewrite\n" ++
  "      - Never add unnecessary length; be concise while being comprehensive\n" ++
  "      - Always maintain the user\x27s original goal as the primary focus\n" ++
  "      \n" ++
  "      ## OUTPUT REQUIREMENTS\n" ++
  "      \n" ++
  "      Return ONLY the improved prompt. No explanations, no preamble, no meta-commentary.\n" ++
  "      The improved prompt should be ready to use immediately."

/-- User message head (lines 1221-1222): fixed text segment A. -/
def userMsgSegA : String :=
  "Improve this prompt:\n" ++
  "  "

/-- User message context block (lines 1224-1232): fixed text segment A. -/
def userMsgCtxSegA : String :=
  "\n" ++
  "\n" ++
  "    CONVERSATION CONTEXT:\n" ++
  "    This is prompt #"

/-- User message context block (lines 1224-1232): fixed text segment B. -/
def userMsgCtxSegB : String :=
  " about: \""

/-- User message context block (lines 1224-1232): fixed text segment C. -/
def userMsgCtxSegC : String :=
  "\"\n" ++
  "    \n" ++
  "    Previous prompts:\n" ++
  "    "

/-- User message context block (lines 1224-1232): fixed text segment D. -/
def userMsgCtxSegD : String :=
  "\n" ++
  "    \n" ++
  "    Use this context to create an improvement that builds on the previous prompts."

/-- formatContext header (line 1168). -/
def fmtHeaderSegA : String :=
  "\n" ++
  "### Conversational Context (v0.2.0)\n"

/-- formatContext topic line (line 1172): fixed text segment A. -/
def fmtTopicSegA : String :=
  "The user is working on: **"

/-- formatContext topic line (line 1172): fixed text segment B. -/
def fmtTopicSegB : String :=
  "**\n"

/-- formatContext key details line (line 1177): fixed text segment A. -/
def fmtKeyDetailsSegA : String :=
  "Key details from the conversation: "

/-- formatContext key details line (line 1177): fixed text segment B. -/
def fmtKeyDetailsSegB : String :=
  "\n"

/-- formatContext previous prompts header (line 1182): fixed text segment A. -/
def fmtPrevHeadSegA : String :=
  "\n" ++
  "Previous prompts in this conversation:\n"

/-- formatContext previous prompt line (line 1184): fixed text segment B. -/
def fmtPrevLineSegB : String :=
  ". \""

/-- formatContext previous prompt line (line 1184): fixed text segment C. -/
def fmtPrevLineSegC : String :=
  "\"\n"

/-- formatContext history directive (line 1186): fixed text segment A. -/
def fmtPrevTailSegA : String :=
  "\n" ++
  "Consider this conversation history when improving the current prompt. Ensure consistency with previous improvements and avoid repeating the same suggestions.\n"

/-- formatContext questions asked line (line 1191): fixed text segment A. -/
def fmtAskedSegA : String :=
  "\n" ++
  "Questions already asked in this conversation: "

/-- formatContext questions asked line (line 1191): fixed text segment B. -/
def fmtAskedSegB : String :=
  "\n"

/-- formatContext avoid-repeat line (line 1192): fixed text segment A. -/
def fmtAskedTailSegA : String :=
  "Avoid asking these questions again.\n"



/-- JavaScript `v || dflt` for an optional string: `undefined`/`null` and
the empty string are falsy. -/
def jsOrStr (v : Option String) (dflt : String) : String :=
  match v with
  | some s => if s = "" then dflt else s
  | none => dflt

/-- Any truthy, non-empty `refinementAnswers` object:
`refinementAnswers && Object.keys(refinementAnswers).length > 0`
(src/index.js line 1314). The object is modelled as its key/value list. -/
def raNonempty (refinementAnswers : Option (List (String × String))) : Bool :=
  match refinementAnswers with
  | none => false
  | some l => decide (0 < l.length)

/-- The `domainSpecificInstructions` if-chain (src/index.js lines 1252-1305):
exact match on seven domains, empty block otherwise. -/
def domainSpecificInstructionsFor (domain : Option String) : String :=
  if domain = some "technical" then technicalGuidanceSegA
  else if domain = some "creative" then creativeGuidanceSegA
  else if domain = some "business" then businessGuidanceSegA
  else if domain = some "academic" then academicGuidanceSegA
  else if domain = some "career" then careerGuidanceSegA
  else if domain = some "personal" then personalGuidanceSegA
  else if domain = some "finance" then financeGuidanceSegA
  else ""

/-- The refinement-mode context instructions (src/index.js lines 1323-1336),
quoting the last up to three previous prompts:
`${context.previousPrompts.slice(-3).map((p, i) => ...).join('\n')}`. -/
def refinementInstructions (pp : List PrevPrompt) : String :=
  refinementSegA ++
  String.intercalate "\n" ((takeLast 3 pp).enum.map
    (fun e => toString (e.1 + 1) ++ ". Original: \"" ++ e.2.original ++ "\"")) ++
  refinementSegB

/-- The self-contained follow-up instruction text returned early at
src/index.js lines 1341-1401, listing all previous prompts. -/
def followUpInstructions (topic : Option String) (pp : List PrevPrompt) : String :=
  followUpSegA ++ jsOrStr topic "various topics" ++ followUpSegB ++
  String.intercalate "\n" (pp.enum.map
    (fun e => toString (e.1 + 1) ++ ". \"" ++ e.2.original ++ "\" (domain: " ++
      e.2.domain ++ ")")) ++
  followUpSegC

/-- The final template of `buildSystemPrompt` (src/index.js lines 1412-1479):
fixed preamble, the domain-specific guidance block, the context instruction
block, and the fixed platform heuristics / output requirements closing. -/
def mainTemplate (domainSpecificInstructions contextInstructions : String) : String :=
  mainSegA ++ domainSpecificInstructions ++ mainSegB ++ contextInstructions ++ mainSegC

/-- `formatContextForSystemPrompt` (src/index.js lines 1163-1196). Every
optional field is guarded: an absent or empty topic, and absent or empty
arrays, contribute nothing. -/
def formatContextForSystemPrompt (context : Option ConversationContext) : String :=
  match context with
  | none => ""
  | some ctx =>
    let s := fmtHeaderSegA
    let s := s ++ (match ctx.conversationTopic with
      | some t => if t = "" then "" else fmtTopicSegA ++ t ++ fmtTopicSegB
      | none => "")
    let s := s ++ (match ctx.keyDetails with
      | some kd =>
        if kd.length > 0 then
          fmtKeyDetailsSegA ++ String.intercalate ", " kd ++ fmtKeyDetailsSegB
        else ""
      | none => "")
    let s := s ++ (match ctx.previousPrompts with
      | some pp =>
        if pp.length > 0 then
          fmtPrevHeadSegA ++
          String.join ((takeLast 3 pp).enum.map
            (fun e => toString (e.1 + 1) ++ fmtPrevLineSegB ++ e.2.original ++
              fmtPrevLineSegC)) ++
          fmtPrevTailSegA
        else ""
      | none => "")
    let s := s ++ (match ctx.questionsAsked with
      | some qa =>
        if qa.length > 0 then
          fmtAskedSegA ++ String.intercalate ", " qa ++ fmtAskedSegB ++ fmtAskedTailSegA
        else ""
      | none => "")
    s

/-- `buildSystemPrompt` (src/index.js lines 1241-1480). `none` models a
thrown exception: the refinement branch reads
`context.previousPrompts.slice(-3)` with no guard (line 1328), a `TypeError`
when `previousPrompts` is absent. The follow-up branch runs only when
`previousPrompts` is a list of length `> 1`, so its `getD []` never fires. -/
def buildSystemPrompt (domain : Option String) (context : Option ConversationContext)
    (refinementAnswers : Option (List (String × String))) : Option String :=
  let domainSpecificInstructions := domainSpecificInstructionsFor domain
  match context with
  | none => some (mainTemplate domainSpecificInstructions "")
  | some ctx =>
    let isRefinement := raNonempty refinementAnswers
    let isFollowUp := match ctx.previousPrompts with
      | some pp => decide (pp.length > 1)
      | none => false
    if isRefinement then
      match ctx.previousPrompts with
      | none => none
      | some pp => some (mainTemplate domainSpecificInstructions (refinementInstructions pp))
    else if isFollowUp then
      some (followUpInstructions ctx.conversationTopic (ctx.previousPrompts.getD []))
    else
      some (mainTemplate domainSpecificInstructions (formatContextForSystemPrompt (some ctx)))

/-- `buildUserMessage` (src/index.js lines 1220-1235). -/
def buildUserMessage (prompt : String) (context : Option ConversationContext) : String :=
  let message := userMsgSegA ++ prompt
  match context with
  | some ctx =>
    (match ctx.previousPrompts with
     | some pp =>
       if pp.length > 0 then
         message ++ userMsgCtxSegA ++ toString (pp.length + 1) ++ userMsgCtxSegB ++
           jsOrStr ctx.conversationTopic "various topics" ++ userMsgCtxSegC ++
           String.intercalate "\n" (pp.enum.map
             (fun e => toString (e.1 + 1) ++ ". \"" ++ e.2.original ++ "\"")) ++
           userMsgCtxSegD
       else message
     | none => message)
  | none => message

/-! ## The improve-prompt request handler (src/index.js lines 999-1153) -/

/-- The outcome of `POST /api/improve-prompt`: either an error JSON with an
HTTP status, or the success JSON of src/index.js lines 1095-1126. -/
inductive ImproveResponse where
  | failure (status : Nat) (error : String)
  | success (improved : String) (scoreBefore scoreAfter : Nat) (scoreImprovement : Int)
      (questions : List QuestionRef) (contextAware : Bool) (isRefinementFlag : Bool)
      (timestamp : Nat)
deriving DecidableEq

/-- The identifiers in scope at the success log of the handler
(src/index.js lines 1087-1092): the request fields destructured at line 1001
and the locals bound on the success path before line 1087. -/
def handlerScopeAtSuccessLog : List String :=
  ["prompt", "platform", "domain", "context", "refinementAnswers", "systemPrompt",
   "response", "improvedPrompt", "scoreBefore", "scoreAfter", "scoreImprovement",
   "contextAwareQuestions"]

/-- The success log at src/index.js line 1090 evaluates the identifier
`score`, which is not in scope (and not declared anywhere in the module), so
evaluating the log argument raises `ReferenceError: score is not defined`. -/
def successLogThrows : Bool := !(handlerScopeAtSuccessLog.contains "score")

/-- The `POST /api/improve-prompt` handler (src/index.js lines 999-1153).

* `gateway` is the external completion endpoint
  `(systemInstruction, userMessage) -> text`; `none` models a response with
  no usable `choices[0].message` (the handler throws and answers 500).
* The request `context` is modelled in the flat canonical shape, on which
  the normalization `context?.context || context` at line 1026 is the
  identity.
* A thrown `TypeError`/`ReferenceError` has no `status` field and no
  timeout/network marker in its message, so the catch block at lines
  1127-1152 maps it to status 500 with the generic message. -/
def improvePromptHandler (prompt platform : String) (domain : Option String)
    (context : Option ConversationContext)
    (refinementAnswers : Option (List (String × String)))
    (gateway : String → String → Option String) (now : Nat) : ImproveResponse :=
  if prompt = "" then .failure 400 "Invalid prompt: must be a non-empty string"
  else if trimStr prompt = "" then .failure 400 "Prompt cannot be empty"
  else if !(platform = "chatgpt" || platform = "claude") then
    .failure 400 "Invalid platform: must be \x27chatgpt\x27 or \x27claude\x27"
  else
    match buildSystemPrompt domain context refinementAnswers with
    | none => .failure 500 "Failed to improve prompt. Please try again."
    | some systemPrompt =>
      match gateway systemPrompt (buildUserMessage prompt context) with
      | none => .failure 500 "Failed to improve prompt. Please try again."
      | some content =>
        let improvedPrompt := trimStr content
        if improvedPrompt.length < 5 then .failure 500 "Generated prompt is too short"
        else
          let scoreBefore := calculatePromptScore prompt
          let scoreAfter := calculatePromptScore improvedPrompt
          let scoreImprovement : Int := (scoreAfter : Int) - (scoreBefore : Int)
          let contextAwareQuestions := generateContextAwareQuestions domain context
          if successLogThrows then .failure 500 "Failed to improve prompt. Please try again."
          else
            .success improvedPrompt scoreBefore scoreAfter scoreImprovement
              contextAwareQuestions
              (match context with
               | some ctx =>
                 (match ctx.previousPrompts with
                  | some pp => decide (pp.length > 0)
                  | none => false)
               | none => false)
              (raNonempty refinementAnswers)
              now

/-! ## Helper lemmas -/

/-- The selection loop: the resulting maximum is the maximum of the
accumulator and all listed scores; when no score exceeds the accumulator the
pair is unchanged; and when one does, the winner is the first entry
attaining the final maximum (every earlier entry is strictly below it). -/
theorem pickMax_spec : ∀ (l : List (String × Nat)) (m : Nat) (d : String),
    (pickMax l m d).1 = max m (listMax l) ∧
    (listMax l ≤ m → pickMax l m d = (m, d)) ∧
    (m < (pickMax l m d).1 →
      ∃ l1 l2, l = l1 ++ ((pickMax l m d).2, (pickMax l m d).1) :: l2 ∧
        ∀ q ∈ l1, q.2 < (pickMax l m d).1)
  | [], m, d => by
    refine ⟨by simp [pickMax, listMax], fun _ => rfl, fun h => absurd h ?_⟩
    simp [pickMax]
  | (dom, s) :: rest, m, d => by
    have hlm : listMax ((dom, s) :: rest) = max s (listMax rest) := rfl
    by_cases h : m < s
    · obtain ⟨ih1, ih2, ih3⟩ := pickMax_spec rest s dom
      have hp : pickMax ((dom, s) :: rest) m d = pickMax rest s dom := by
        simp [pickMax, h]
      rw [hp, hlm]
      refine ⟨by rw [ih1]; omega, ?_, ?_⟩
      · intro hle
        exfalso
        have hs : s ≤ max s (listMax rest) := le_max_left _ _
        omega
      · intro hm
        by_cases h2 : s < (pickMax rest s dom).1
        · obtain ⟨l1, l2, hEq, hLt⟩ := ih3 h2
          refine ⟨(dom, s) :: l1, l2, by rw [List.cons_append, ← hEq], ?_⟩
          intro q hq
          rcases List.mem_cons.mp hq with rfl | hq'
          · exact h2
          · exact hLt q hq'
        · have hres : pickMax rest s dom = (s, dom) := by
            apply ih2
            omega
          refine ⟨[], rest, ?_, by simp⟩
          simp [hres]
    · obtain ⟨ih1, ih2, ih3⟩ := pickMax_spec rest m d
      have hp : pickMax ((dom, s) :: rest) m d = pickMax rest m d := by
        simp [pickMax, h]
      rw [hp, hlm]
      refine ⟨by rw [ih1]; omega, ?_, ?_⟩
      · intro hle
        apply ih2
        omega
      · intro hm
        obtain ⟨l1, l2, hEq, hLt⟩ := ih3 hm
        refine ⟨(dom, s) :: l1, l2, by rw [List.cons_append, ← hEq], ?_⟩
        intro q hq
        rcases List.mem_cons.mp hq with rfl | hq'
        · have hsm : s ≤ m := Nat.le_of_not_lt h
          exact lt_of_le_of_lt hsm hm
        · exact hLt q hq'

/-- A score list whose maximum is 0 has only zero entries. -/
theorem listMax_eq_zero : ∀ (l : List (String × Nat)), listMax l = 0 → ∀ q ∈ l, q.2 = 0
  | [], _, q, hq => absurd hq (List.not_mem_nil q)
  | (d, s) :: rest, h, q, hq => by
    have hlm : listMax ((d, s) :: rest) = max s (listMax rest) := rfl
    rw [hlm] at h
    rcases List.mem_cons.mp hq with rfl | hq'
    · show s = 0
      omega
    · exact listMax_eq_zero rest (by omega) q hq'

/-- The score accumulation over a keyword list applies one float addition
of the weight per matching keyword. -/
theorem foldl_flAdd_filter (w : Nat) (pred : String → Bool) :
    ∀ (l : List String) (a : Nat),
      l.foldl (fun acc kw => if pred kw then flAdd acc w else acc) a =
        (fun x => flAdd x w)^[(l.filter pred).length] a
  | [], a => by simp
  | k :: t, a => by
    rw [List.foldl_cons, List.filter_cons]
    cases hpk : pred k
    · simp only [hpk, Bool.false_eq_true, if_false]
      exact foldl_flAdd_filter w pred t a
    · simp only [hpk, if_true, List.length_cons]
      rw [foldl_flAdd_filter w pred t (flAdd a w)]
      exact (Function.iterate_succ_apply (fun x => flAdd x w) _ a).symm

/-- `flAddTimes` is the iterate of one float addition. -/
theorem flAddTimes_eq_iterate (w : Nat) :
    ∀ n, flAddTimes w n = (fun x => flAdd x w)^[n] 0
  | 0 => rfl
  | n + 1 => by
    rw [Function.iterate_succ_apply' (fun x => flAdd x w) n 0]
    exact congrArg (fun x => flAdd x w) (flAddTimes_eq_iterate w n)

/-- `domainScore` performs one float addition of the weight per matching
keyword: it is the accumulated float sum over the number of matches. -/
theorem domainScore_eq (lowerPrompt : String) (cfg : DomainConfig) :
    domainScore lowerPrompt cfg =
      flAddTimes cfg.weight
        ((cfg.keywords.filter (fun kw => strIncludes lowerPrompt kw)).length) := by
  unfold domainScore
  rw [foldl_flAdd_filter, flAddTimes_eq_iterate]

/-- Looking a key up in the image of a key-preserving map, when the keys are
distinct. -/
theorem lookup_map_scores (f : String × DomainConfig → Nat) :
    ∀ (l : List (String × DomainConfig)), (l.map Prod.fst).Nodup →
      ∀ d cfg, (d, cfg) ∈ l →
        List.lookup d (l.map (fun e => (e.1, f e))) = some (f (d, cfg))
  | [], _, d, cfg, hm => absurd hm (List.not_mem_nil _)
  | (d', c') :: t, hnd, d, cfg, hm => by
    rcases List.mem_cons.mp hm with heq | hmem
    · cases heq
      simp [List.lookup]
    · have hd : d ≠ d' := by
        intro heq
        subst heq
        have h1 : d ∈ t.map Prod.fst := by
          exact List.mem_map_of_mem Prod.fst hmem
        have h2 : d ∉ t.map Prod.fst := (List.nodup_cons.mp (by simpa using hnd)).1
        exact h2 h1
      simp only [List.map_cons, List.lookup]
      rw [show (d == d') = false from beq_eq_false_iff_ne.mpr hd]
      exact lookup_map_scores f t (by simpa using (List.nodup_cons.mp (by simpa using hnd)).2)
        d cfg hmem

/-- Looking up the key of a distinguished entry when no earlier entry
shares it. -/
theorem lookup_append_cons :
    ∀ (l1 l2 : List (String × Nat)) (d : String) (v : Nat),
      d ∉ l1.map Prod.fst → List.lookup d (l1 ++ (d, v) :: l2) = some v
  | [], l2, d, v, _ => by simp [List.lookup]
  | (d', v') :: t, l2, d, v, h => by
    have hd : d ≠ d' := by
      intro heq
      exact h (by simp [heq])
    simp only [List.cons_append, List.lookup]
    rw [show (d == d') = false from beq_eq_false_iff_ne.mpr hd]
    exact lookup_append_cons t l2 d v (fun hm => h (by simp [hm]))

/-- The score list of `detectDomain` has the keys of `DOMAIN_KEYWORDS`. -/
theorem detectDomain_scores_keys (p : String) :
    (detectDomain p).scores.map Prod.fst = DOMAIN_KEYWORDS.map Prod.fst := by
  simp only [detectDomain, List.map_map]
  rfl

/-- The keys of `DOMAIN_KEYWORDS` are pairwise distinct, and `general` is
not among them. -/
theorem dk_keys_nodup :
    (DOMAIN_KEYWORDS.map Prod.fst).Nodup ∧ "general" ∉ DOMAIN_KEYWORDS.map Prod.fst := by
  decide

/-- Looking up a key that occurs in no entry yields nothing. -/
theorem lookup_none_of_not_mem_keys :
    ∀ (l : List (String × Nat)) (k : String), k ∉ l.map Prod.fst →
      List.lookup k l = none
  | [], _, _ => rfl
  | (k', v') :: t, k, h => by
    have hk : k ≠ k' := fun heq => h (by simp [heq])
    simp only [List.lookup]
    rw [show (k == k') = false from beq_eq_false_iff_ne.mpr hk]
    exact lookup_none_of_not_mem_keys t k (fun hm => h (by simp [hm]))

/-! ## Claim theorems -/

/-- The full characterization of `detectDomain`: per-domain scores are
`weight * (number of matching keywords)`, a zero maximum yields `general`
with confidence 0, and a positive maximum is attained first by the returned
domain. -/
theorem detectDomain_selection_lemma (p : String) :
    (∀ d cfg, (d, cfg) ∈ DOMAIN_KEYWORDS →
      List.lookup d (detectDomain p).scores =
        some (flAddTimes cfg.weight
          ((cfg.keywords.filter (fun kw => strIncludes (lowerStr p) kw)).length))) ∧
    (listMax (detectDomain p).scores = 0 →
      (detectDomain p).domain = "general" ∧ (detectDomain p).confidence = 0) ∧
    (0 < listMax (detectDomain p).scores →
      ∃ l1 l2, (detectDomain p).scores =
          l1 ++ ((detectDomain p).domain, listMax (detectDomain p).scores) :: l2 ∧
        ∀ q ∈ l1, q.2 < listMax (detectDomain p).scores) := by
  have hscores : (detectDomain p).scores =
      DOMAIN_KEYWORDS.map (fun e => (e.1, domainScore (lowerStr p) e.2)) := rfl
  have hdom : (detectDomain p).domain =
      (pickMax (DOMAIN_KEYWORDS.map (fun e => (e.1, domainScore (lowerStr p) e.2)))
        0 "general").2 := rfl
  have hconf : (detectDomain p).confidence =
      jsConfidenceHundredths
        (pickMax (DOMAIN_KEYWORDS.map (fun e => (e.1, domainScore (lowerStr p) e.2)))
          0 "general").1 := rfl
  obtain ⟨h1, h2, h3⟩ := pickMax_spec
    (DOMAIN_KEYWORDS.map (fun e => (e.1, domainScore (lowerStr p) e.2))) 0 "general"
  refine ⟨?_, ?_, ?_⟩
  · intro d cfg hm
    rw [hscores,
      lookup_map_scores (fun e => domainScore (lowerStr p) e.2) DOMAIN_KEYWORDS
        dk_keys_nodup.1 d cfg hm]
    rw [domainScore_eq]
  · intro hz
    rw [hscores] at hz
    have hpick := h2 (by omega)
    constructor
    · rw [hdom, hpick]
    · rw [hconf, hpick]
      decide
  · intro hpos
    rw [hscores] at hpos
    have hm1 : (pickMax (DOMAIN_KEYWORDS.map (fun e => (e.1, domainScore (lowerStr p) e.2)))
        0 "general").1 =
        listMax (DOMAIN_KEYWORDS.map (fun e => (e.1, domainScore (lowerStr p) e.2))) := by
      rw [h1]
      omega
    obtain ⟨l1, l2, hEq, hLt⟩ := h3 (by omega)
    refine ⟨l1, l2, ?_, ?_⟩
    · rw [hscores, hdom]
      rw [← hm1]
      exact hEq
    · intro q hq
      have := hLt q hq
      rw [hscores, ← hm1]
      exact this

set_option maxRecDepth 8192 in
/-- C2 fails as stated: the accumulated scores are IEEE doubles, not exact
decimals, so two domains whose claimed scores tie exactly need not tie in
the code, and the first-seen tie-break then never fires. On the prompt
below, hr matches exactly 10 keywords (weight 1.1, evaluated 7th) and
personal exactly 11 (weight 1.0, evaluated 8th): the claimed exact scores
tie at 11.0 (110 tenths) and the claim returns the earlier domain hr — but
the program accumulates hr to the double 10.999999999999998
(49539595901075448 in `2^-52` units), strictly below personal's exact 11.0
(49539595901075456), and returns personal. `detectDomainClaimed` follows
the claim's words; `detectDomain` follows the source. -/
theorem detectDomain_exact_tie_cex :
    (detectDomainClaimed "hire staff team onboarding candidate talent personnel applicant screening human resources travel hobby personal life goal habit meditation wellness diet gym workout").domain = "hr" ∧
    List.lookup "hr" (detectDomainClaimed "hire staff team onboarding candidate talent personnel applicant screening human resources travel hobby personal life goal habit meditation wellness diet gym workout").scores = some 110 ∧
    List.lookup "personal" (detectDomainClaimed "hire staff team onboarding candidate talent personnel applicant screening human resources travel hobby personal life goal habit meditation wellness diet gym workout").scores = some 110 ∧
    (detectDomain "hire staff team onboarding candidate talent personnel applicant screening human resources travel hobby personal life goal habit meditation wellness diet gym workout").domain = "personal" ∧
    List.lookup "hr" (detectDomain "hire staff team onboarding candidate talent personnel applicant screening human resources travel hobby personal life goal habit meditation wellness diet gym workout").scores = some 49539595901075448 ∧
    List.lookup "personal" (detectDomain "hire staff team onboarding candidate talent personnel applicant screening human resources travel hobby personal life goal habit meditation wellness diet gym workout").scores = some 49539595901075456 := by
  decide

/-- C2 amended: for every prompt, `detectDomain` lower-cases the prompt once
and accumulates, per domain, one double addition of the profile weight per
keyword occurring as a substring of the lowered prompt — still exactly once
per keyword, however often the keyword recurs, but in IEEE double
arithmetic, so exact-decimal ties need not be ties of the accumulated
scores; the returned domain is the first one in iteration order attaining
the strictly greatest accumulated score (all earlier entries are strictly
smaller), and when the maximum score is 0 the result is domain `general`
with confidence 0. -/
theorem detectDomain_keyword_scores_and_selection (p : String) :
    (∀ d cfg, (d, cfg) ∈ DOMAIN_KEYWORDS →
      List.lookup d (detectDomain p).scores =
        some (flAddTimes cfg.weight
          ((cfg.keywords.filter (fun kw => strIncludes (lowerStr p) kw)).length))) ∧
    (listMax (detectDomain p).scores = 0 →
      (detectDomain p).domain = "general" ∧ (detectDomain p).confidence = 0) ∧
    (0 < listMax (detectDomain p).scores →
      ∃ l1 l2, (detectDomain p).scores =
          l1 ++ ((detectDomain p).domain, listMax (detectDomain p).scores) :: l2 ∧
        ∀ q ∈ l1, q.2 < listMax (detectDomain p).scores) :=
  detectDomain_selection_lemma p

/-- C2 amended witness: on the prompt
"Fix this Python function that sorts a list" the technical score is the
double 2.0 (keywords "python" and "function", two additions of 1.0, which
are exact: 9007199254740992 in `2^-52` units); on the prompt "zzz" every
score is 0 and the result is domain `general` with confidence 0. -/
theorem detectDomain_keyword_scores_and_selection_witness :
    List.lookup "technical" (detectDomain "Fix this Python function that sorts a list").scores =
      some 9007199254740992 ∧
    (detectDomain "zzz").domain = "general" ∧ (detectDomain "zzz").confidence = 0 := by
  refine ⟨?_, ?_⟩
  · exact ((detectDomain_keyword_scores_and_selection
      "Fix this Python function that sorts a list").1 "technical"
      ⟨["code", "python", "javascript", "function", "algorithm", "debug", "api", "database", "server", "optimize", "performance", "sql", "react", "node", "git", "docker", "aws", "programming", "software", "development", "framework", "library"], 4503599627370496⟩
      (by decide)).trans (by decide)
  · exact (detectDomain_keyword_scores_and_selection "zzz").2.1 (by decide)

/-- C3 fails as stated: for the prompt "zzz" no keyword matches, every score
is 0 and the returned domain is `general` — but the scores mapping has no
entry for `general` at all, so the value of `scores` at the returned domain
is undefined rather than the maximum of the entries. -/
theorem detectDomain_scores_missing_at_general :
    (detectDomain "zzz").domain = "general" ∧
    List.lookup (detectDomain "zzz").domain (detectDomain "zzz").scores = none ∧
    listMax (detectDomain "zzz").scores = 0 := by decide

/-- C3 amended: for every prompt, either the scores mapping at the returned
domain is defined and equals the maximum value across all entries, or the
returned domain is `general`, every entry of the scores mapping is 0, and
the returned domain has no entry in the mapping. -/
theorem detectDomain_domain_attains_max (p : String) :
    List.lookup (detectDomain p).domain (detectDomain p).scores =
        some (listMax (detectDomain p).scores) ∨
    ((detectDomain p).domain = "general" ∧ (∀ q ∈ (detectDomain p).scores, q.2 = 0) ∧
      List.lookup (detectDomain p).domain (detectDomain p).scores = none) := by
  by_cases hz : listMax (detectDomain p).scores = 0
  · right
    have hdom := ((detectDomain_selection_lemma p).2.1 hz).1
    refine ⟨hdom, listMax_eq_zero _ hz, ?_⟩
    rw [hdom]
    apply lookup_none_of_not_mem_keys
    rw [detectDomain_scores_keys p]
    exact dk_keys_nodup.2
  · left
    obtain ⟨l1, l2, hEq, hLt⟩ :=
      (detectDomain_selection_lemma p).2.2 (by omega)
    have hnd : ((detectDomain p).scores.map Prod.fst).Nodup := by
      rw [detectDomain_scores_keys p]
      exact dk_keys_nodup.1
    have hnotmem : (detectDomain p).domain ∉ l1.map Prod.fst := by
      intro hmem
      rw [hEq] at hnd
      simp only [List.map_append, List.map_cons] at hnd
      obtain ⟨-, -, hdisj⟩ := List.nodup_append.mp hnd
      exact hdisj hmem (List.mem_cons_self _ _)
    conv_lhs => rw [hEq]
    exact lookup_append_cons _ _ _ _ hnotmem

/-- C4: for every text, `calculatePromptScore` equals
`min 100 (clarity + structure + completeness + specificity)` with the four
sub-scores exactly as the specification states them (the sum is an integer,
so rounding is the identity), and the result always lies in [0, 100]. -/
theorem calculatePromptScore_spec (text : String) :
    calculatePromptScore text =
      min 100 (clarityScoreSpec text + structureScoreSpec text +
        completenessScoreSpec text + specificityScoreSpec text) ∧
    calculatePromptScore text ≤ 100 := by
  have heq : calculatePromptScore text =
      min 100 (clarityScoreSpec text + structureScoreSpec text +
        completenessScoreSpec text + specificityScoreSpec text) := by
    simp only [calculatePromptScore, clarityScoreSpec, structureScoreSpec,
      completenessScoreSpec, specificityScoreSpec]
    omega
  exact ⟨heq, heq ▸ Nat.min_le_left _ _⟩

/-- C5: for every domain and context, `generateContextAwareQuestions` never
returns an empty list when the (fallback-resolved) catalog questions are
non-empty; questions whose text was already asked are removed, except that
when every question was already asked the unfiltered list is returned. -/
theorem generateContextAwareQuestions_spec (domain : Option String)
    (context : Option ConversationContext) :
    (generateQuestions domain ≠ [] → generateContextAwareQuestions domain context ≠ []) ∧
    ((∃ q ∈ generateQuestions domain, q.text ∉ askedTexts context) →
      generateContextAwareQuestions domain context =
        (generateQuestions domain).filter
          (fun q => !((askedTexts context).contains q.text))) ∧
    ((∀ q ∈ generateQuestions domain, q.text ∈ askedTexts context) →
      generateContextAwareQuestions domain context = generateQuestions domain) := by
  match context with
  | none =>
    refine ⟨fun h => h, fun _ => ?_, fun _ => rfl⟩
    simp [generateContextAwareQuestions, askedTexts]
  | some ctx =>
    match hqa : ctx.questionsAsked with
    | none =>
      have hres : generateContextAwareQuestions domain (some ctx) =
          generateQuestions domain := by
        simp [generateContextAwareQuestions, hqa]
      have hask : askedTexts (some ctx) = [] := by simp [askedTexts, hqa]
      rw [hres, hask]
      refine ⟨fun h => h, fun _ => ?_, fun _ => rfl⟩
      simp
    | some asked =>
      have hask : askedTexts (some ctx) = asked := by simp [askedTexts, hqa]
      have hres : generateContextAwareQuestions domain (some ctx) =
          (if ((generateQuestions domain).filter
                (fun q => !(asked.contains q.text))).length > 0
           then (generateQuestions domain).filter (fun q => !(asked.contains q.text))
           else generateQuestions domain) := by
        simp [generateContextAwareQuestions, hqa]
      rw [hres, hask]
      by_cases hf : ((generateQuestions domain).filter
          (fun q => !(asked.contains q.text))).length > 0
      · rw [if_pos hf]
        refine ⟨fun _ hnil => ?_, fun _ => rfl, fun hall => ?_⟩
        · rw [hnil] at hf
          simp at hf
        · exfalso
          have hnil : (generateQuestions domain).filter
              (fun q => !(asked.contains q.text)) = [] := by
            rw [List.filter_eq_nil_iff]
            intro q hq
            have hmem := hall q hq
            simp [List.contains, List.elem_iff, hmem]
          rw [hnil] at hf
          simp at hf
      · rw [if_neg hf]
        refine ⟨fun h => h, fun hex => ?_, fun _ => rfl⟩
        exfalso
        obtain ⟨q, hq, hnot⟩ := hex
        have hmem : q ∈ (generateQuestions domain).filter
            (fun q => !(asked.contains q.text)) := by
          rw [List.mem_filter]
          refine ⟨hq, ?_⟩
          simp [List.contains, List.elem_iff, hnot]
        have := List.length_pos.mpr (List.ne_nil_of_mem hmem)
        omega

/-- C5 witness: with the technical question catalog and a context that has
already asked "What is your primary goal?", the returned list is still
non-empty. -/
theorem generateContextAwareQuestions_spec_witness :
    generateContextAwareQuestions (some "technical")
      (some ⟨none, none, none, some ["What is your primary goal?"]⟩) ≠ [] :=
  (generateContextAwareQuestions_spec (some "technical")
    (some ⟨none, none, none, some ["What is your primary goal?"]⟩)).1 (by decide)

/-- A successful association-list lookup comes from an entry of the list. -/
theorem mem_of_lookup_questions :
    ∀ (l : List (String × List QuestionRef)) (k : String) (v : List QuestionRef),
      List.lookup k l = some v → (k, v) ∈ l
  | [], k, v, h => by simp [List.lookup] at h
  | (k', v') :: t, k, v, h => by
    simp only [List.lookup] at h
    cases hbeq : (k == k') with
    | false =>
      rw [hbeq] at h
      exact List.mem_cons_of_mem _ (mem_of_lookup_questions t k v h)
    | true =>
      rw [hbeq] at h
      have hk : k = k' := eq_of_beq hbeq
      have hv : v' = v := by
        injection h
      subst hk
      subst hv
      exact List.mem_cons_self _ _

/-- Every question of a catalog entry references a catalog-owned answers
array. -/
theorem lookup_questions_refs (qs : List QuestionRef) (d : String)
    (hl : List.lookup d DOMAIN_QUESTIONS = some qs) :
    ∀ q ∈ qs, q.answersRef ∈ catalogAnswerRefs := by
  intro q hq
  have hmem := mem_of_lookup_questions DOMAIN_QUESTIONS d qs hl
  have hsnd : qs ∈ DOMAIN_QUESTIONS.map Prod.snd := List.mem_map_of_mem Prod.snd hmem
  have hflat : q ∈ (DOMAIN_QUESTIONS.map Prod.snd).flatten :=
    List.mem_flatten.mpr ⟨qs, hsnd, hq⟩
  exact List.mem_map_of_mem _ hflat

/-- The per-question spread copy keeps every field, so the copied list is
the catalog list itself (the sharing is in the `answersRef` field). -/
theorem questionCopy_id (qs : List QuestionRef) :
    qs.map (fun q => ({ id := q.id, text := q.text, answersRef := q.answersRef } :
      QuestionRef)) = qs := by
  have hfun : (fun q : QuestionRef =>
      ({ id := q.id, text := q.text, answersRef := q.answersRef } : QuestionRef)) = id := by
    funext q
    rfl
  rw [hfun, List.map_id]

/-- C6 fails as stated: `generateQuestions` copies each question record with
a spread, but the `answers` field of the copy is the same array reference as
the catalog entry. A caller that empties the answers array of the first
returned technical question (heap address 3) changes what a subsequent
catalog read of `technical` returns. -/
theorem generateQuestions_answers_shared :
    ((generateQuestions (some "technical")).map (fun q => q.answersRef)).head? = some 3 ∧
    readCatalog (updateHeap initialAnswerHeap 3 []) "technical" ≠
      readCatalog initialAnswerHeap "technical" := by decide

/-- C6 amended: the returned sequence and its question records are fresh
copies whose content equals the catalog content, so mutating the sequence or
the records leaves the catalog unchanged — but each returned question still
references a catalog-owned answers array (first conjunct), and only writes
outside those catalog-owned arrays are guaranteed to leave every later
catalog read unchanged (second conjunct). -/
theorem generateQuestions_fresh_except_answers (domain : Option String) :
    (∀ q ∈ generateQuestions domain, q.answersRef ∈ catalogAnswerRefs) ∧
    (∀ (a : Nat) (v : List Answer) (dom : String), a ∉ catalogAnswerRefs →
      readCatalog (updateHeap initialAnswerHeap a v) dom =
        readCatalog initialAnswerHeap dom) := by
  constructor
  · intro q hq
    simp only [generateQuestions] at hq
    rw [questionCopy_id] at hq
    cases hd : domain.bind (fun d => DOMAIN_QUESTIONS.lookup d) with
    | some qs =>
      rw [hd] at hq
      obtain ⟨d', -, hl⟩ := Option.bind_eq_some.mp hd
      exact lookup_questions_refs qs d' hl q hq
    | none =>
      rw [hd] at hq
      cases hg : List.lookup "general" DOMAIN_QUESTIONS with
      | some qs =>
        rw [hg] at hq
        exact lookup_questions_refs qs "general" hg q hq
      | none =>
        rw [hg] at hq
        simp at hq
  · intro a v dom ha
    cases hl : List.lookup dom DOMAIN_QUESTIONS with
    | none => simp [readCatalog, hl]
    | some qs =>
      simp only [readCatalog, hl, Option.getD_some]
      apply List.map_congr_left
      intro q hq
      have href : q.answersRef ∈ catalogAnswerRefs := lookup_questions_refs qs dom hl q hq
      have hne : q.answersRef ≠ a := fun heq => ha (heq ▸ href)
      simp [readQuestion, updateHeap, hne]

/-- C6 amended witness: a write at a non-catalog address (1000) leaves the
technical catalog entry unchanged. -/
theorem generateQuestions_fresh_except_answers_witness :
    readCatalog (updateHeap initialAnswerHeap 1000 []) "technical" =
      readCatalog initialAnswerHeap "technical" :=
  (generateQuestions_fresh_except_answers (some "technical")).2 1000 [] "technical" (by decide)

/-- C7: the context store provides read-after-write, delete-to-absent and
full-replacement semantics: a get after a save returns the saved fields plus
the save timestamp; a get after a delete reports absence; two saves in a row
leave exactly the second context with its own timestamp, with no residual
field of the first (the result does not depend on the first context at
all). -/
theorem contextStorage_spec (s : ContextStoreState) (id : String)
    (x y : FieldMap) (t1 t2 : String) :
    getContext (saveContext s id x t1) id = some (stampSavedAt x t1) ∧
    getContext (deleteContext (saveContext s id x t1) id) id = none ∧
    getContext (saveContext (saveContext s id x t1) id y t2) id =
      some (stampSavedAt y t2) := by
  refine ⟨?_, ?_, ?_⟩ <;> simp [getContext, saveContext, deleteContext]

/-- C8: refinement detection takes priority over follow-up detection: when
`refinementAnswers` is present with at least one key and
`context.previousPrompts` has more than one entry, the assembled instruction
is the main template carrying the refinement context block — the follow-up
early return is not taken. -/
theorem buildSystemPrompt_refinement_priority (domain : Option String)
    (ctx : ConversationContext) (pp : List PrevPrompt) (ra : List (String × String))
    (hra : ra ≠ []) (hpp : ctx.previousPrompts = some pp) (_hlen : pp.length > 1) :
    buildSystemPrompt domain (some ctx) (some ra) =
      some (mainTemplate (domainSpecificInstructionsFor domain)
        (refinementInstructions pp)) := by
  have hlra : 0 < ra.length := List.length_pos.mpr hra
  simp [buildSystemPrompt, raNonempty, hpp, hlra]

/-- C8 witness: with refinement answers `{q1: "a"}` and two previous
prompts, the refinement branch is selected. -/
theorem buildSystemPrompt_refinement_priority_witness :
    buildSystemPrompt (some "technical")
      (some ⟨none, none,
        some [⟨"first prompt", "technical"⟩, ⟨"second prompt", "technical"⟩], none⟩)
      (some [("q1", "a")]) =
      some (mainTemplate (domainSpecificInstructionsFor (some "technical"))
        (refinementInstructions
          [⟨"first prompt", "technical"⟩, ⟨"second prompt", "technical"⟩])) :=
  buildSystemPrompt_refinement_priority (some "technical") _ _ _
    (by decide) rfl (by decide)

/-- C9: when the follow-up branch fires (more than one previous prompt and
absent or empty refinement answers), the returned instruction is exactly the
self-contained follow-up text; in particular the result does not depend on
the domain, so the fixed preamble, the domain-specific guidance block and
the platform heuristics closing of the main template are all omitted. -/
theorem buildSystemPrompt_followUp_shortCircuit (domain domain' : Option String)
    (ctx : ConversationContext) (pp : List PrevPrompt)
    (ra : Option (List (String × String)))
    (hra : raNonempty ra = false) (hpp : ctx.previousPrompts = some pp)
    (hlen : pp.length > 1) :
    buildSystemPrompt domain (some ctx) ra =
      some (followUpInstructions ctx.conversationTopic pp) ∧
    buildSystemPrompt domain (some ctx) ra = buildSystemPrompt domain' (some ctx) ra := by
  have h1 : ∀ d : Option String, buildSystemPrompt d (some ctx) ra =
      some (followUpInstructions ctx.conversationTopic pp) := by
    intro d
    simp [buildSystemPrompt, hra, hpp, hlen]
  exact ⟨h1 domain, (h1 domain).trans (h1 domain').symm⟩

/-- C9 witness: with two previous prompts and no refinement answers the
assembled instruction is the follow-up text, for the technical domain as
well as for any other. -/
theorem buildSystemPrompt_followUp_shortCircuit_witness :
    buildSystemPrompt (some "technical")
      (some ⟨some "api design", none,
        some [⟨"first prompt", "technical"⟩, ⟨"second prompt", "technical"⟩], none⟩)
      none =
      some (followUpInstructions (some "api design")
        [⟨"first prompt", "technical"⟩, ⟨"second prompt", "technical"⟩]) :=
  (buildSystemPrompt_followUp_shortCircuit (some "technical") (some "creative") _ _ none
    rfl rfl (by decide)).1

/-- C10: `buildSystemPrompt` returns a string under the precondition that a
context accompanied by non-empty refinement answers carries a
`previousPrompts` array; and the precondition is needed: the refinement
branch reads `context.previousPrompts.slice(-3)` unguarded, so a context
without `previousPrompts` together with non-empty refinement answers makes
the call throw (modelled as `none`), while every other branch guards each
optional context field. -/
theorem buildSystemPrompt_total_unless_refinement_without_prompts
    (domain : Option String) (context : Option ConversationContext)
    (ra : Option (List (String × String)))
    (h : ∀ ctx, context = some ctx → raNonempty ra = true →
      ctx.previousPrompts ≠ none) :
    (∃ s, buildSystemPrompt domain context ra = some s) ∧
    buildSystemPrompt none (some ⟨none, none, none, none⟩) (some [("q1", "a")]) = none := by
  constructor
  · match context with
    | none => exact ⟨_, rfl⟩
    | some ctx =>
      cases hra : raNonempty ra with
      | true =>
        have hpp := h ctx rfl hra
        cases hpp2 : ctx.previousPrompts with
        | none => exact absurd hpp2 hpp
        | some pp =>
          exact ⟨mainTemplate (domainSpecificInstructionsFor domain)
            (refinementInstructions pp), by simp [buildSystemPrompt, hra, hpp2]⟩
      | false =>
        cases hpp2 : ctx.previousPrompts with
        | none =>
          exact ⟨mainTemplate (domainSpecificInstructionsFor domain)
            (formatContextForSystemPrompt (some ctx)),
            by simp [buildSystemPrompt, hra, hpp2]⟩
        | some pp =>
          by_cases hlen : pp.length > 1
          · exact ⟨followUpInstructions ctx.conversationTopic pp,
              by simp [buildSystemPrompt, hra, hpp2, hlen]⟩
          · exact ⟨mainTemplate (domainSpecificInstructionsFor domain)
              (formatContextForSystemPrompt (some ctx)),
              by simp [buildSystemPrompt, hra, hpp2, hlen]⟩
  · rfl

/-- C10 witness: with no context at all the call returns a string. -/
theorem buildSystemPrompt_total_witness :
    ∃ s, buildSystemPrompt (some "technical") none none = some s :=
  (buildSystemPrompt_total_unless_refinement_without_prompts (some "technical") none none
    (fun _ hc _ => Option.noConfusion hc)).1

/-- C1 fails on the code: on a fully valid request (non-empty prompt,
platform `chatgpt`) whose gateway call returns a completion text of well
over 5 characters, the handler does not produce the success response. After
computing the scores and the context-aware questions, the success log at
src/index.js line 1090 evaluates the undeclared identifier `score`
(`ReferenceError: score is not defined`), and the catch block maps the
exception to the generic 500 failure. -/
theorem improvePrompt_success_path_raises :
    improvePromptHandler "Fix this Python function that sorts a list" "chatgpt"
      none none none
      (fun _ _ => some "Here is a significantly improved version of your prompt.") 0 =
      ImproveResponse.failure 500 "Failed to improve prompt. Please try again." := by
  rfl
